import Mathlib

/-!
Verification development for the MeterVision repository.

This file gives a shallow embedding, in Lean 4, of the two core pieces of the
repository: the multi-source meter-reading consensus engine
(`app/services/ocr.py`) and the installation validation pipeline
(`app/services/installation_service.py`, `app/services/validation_service.py`,
`app/services/camera_service.py`), together with theorems settling the frozen
claims about them.

Modelling conventions:
* Python floats are modelled as `ℚ`.  Every numeric value the embedded code
  manipulates is obtained by parsing a decimal digit string, and every
  comparison the claims mention is an exact equality or a sign test, so the
  rational model is faithful for these claims (the spec itself stresses that
  all comparisons are exact).
* Effectful calls (OCR engine invocation, HTTP requests, file access, the
  database) are modelled by passing the call's outcome in explicitly, with
  `Except Unit α` for calls that can raise.  Python's `try/except` blocks
  become pattern matches on those outcomes.
* Python's `str.isdigit` is modelled on ASCII digits, which covers every
  string the repository and the claims exercise.
-/

/-- `digitVal c` is the numeric value of an ASCII digit character. -/
def digitVal (c : Char) : ℕ := c.toNat - 48

/-- Value of a list of ASCII digit characters read in base 10. -/
def digitsToNat (cs : List Char) : ℕ :=
  cs.foldl (fun a c => 10 * a + digitVal c) 0

/-- Parse a list of characters as an unsigned decimal literal, the way Python's
`float` does on strings made of digits and at most one dot: at least one digit,
only digits and `'.'`, and at most one `'.'`.  Returns `none` exactly where
`float(...)` raises `ValueError` on such strings. -/
def parseDecimal (cs : List Char) : Option ℚ :=
  if cs.any Char.isDigit ∧ cs.all (fun c => c.isDigit || c == '.') ∧ cs.count '.' ≤ 1 then
    let ip := cs.takeWhile (fun c => c ≠ '.')
    let fp := (cs.dropWhile (fun c => c ≠ '.')).drop 1
    some (mkRat (digitsToNat (ip ++ fp)) (10 ^ fp.length))
  else none

/-- Python `float(s)` on the plain decimal forms the repository produces:
an optional sign followed by digits with at most one decimal dot.
(The model is a sound subset of Python's parser: where it returns a value,
Python returns the same value.) -/
def pyFloat (s : String) : Option ℚ :=
  match s.data with
  | '-' :: rest => (parseDecimal rest).map (fun q => -q)
  | '+' :: rest => parseDecimal rest
  | cs => parseDecimal cs

/-- `replace(',', '.')` on a character list. -/
def commaToDot (cs : List Char) : List Char :=
  cs.map (fun c => if c = ',' then '.' else c)

/-- Python `float(s.replace(",", "."))`, as used on the calibration hint in
`SmartMeterReader.read_meter`. -/
def pyFloatComma (s : String) : Option ℚ :=
  pyFloat (String.mk (commaToDot s.data))

/-- The normalisation `text.replace(" ", "").replace(",", ".")` applied to the
calibration hint and to raw OCR output before the containment check. -/
def normalizeText (s : String) : List Char :=
  commaToDot (s.data.filter (fun c => c ≠ ' '))

/-- `"".join([c for c in text if c.isdigit() or c in ['.', ',']])` followed by
`.replace(',', '.')`. -/
def keepDigitsDots (cs : List Char) : List Char :=
  commaToDot (cs.filter (fun c => c.isDigit || c == '.' || c == ','))

/-- Python's substring test `needle in hay`, on character lists. -/
def isSub : List Char → List Char → Bool
  | n, [] => n.isEmpty
  | n, h :: t => n.isPrefixOf (h :: t) || isSub n t

/-- `TesseractMeterReader.read_meter`, with the outcome of
`Image.open` + `pytesseract.image_to_string` passed in as `ocr`
(`Except.error` models any exception raised by the image/OCR call; the
function's `try/except` then yields `0.0`).  When the calibration containment
check fires, the source returns `float(expected_value)`; if that call itself
raises, the surrounding `except` yields `0.0`. -/
def tesseractReadMeter (ocr : Except Unit String) (expected : Option String) : ℚ :=
  match ocr with
  | .error _ => 0
  | .ok text =>
    let comp :=
      let cleaned := keepDigitsDots text.data
      if cleaned.isEmpty then (0 : ℚ)
      else (parseDecimal cleaned).getD 0
    match expected with
    | some e =>
      if isSub (normalizeText e) (normalizeText text) then (pyFloat e).getD 0
      else comp
    | none => comp

/-- The scoring data `EasyOCRMeterReader.read_meter` computes for one
recognised text segment: the parsed value and the score
(digit count, plus a bonus of 2 when a decimal dot is present).
`none` models the `continue` branches (empty cleaned text, more than one dot,
or `ValueError` from `float`). -/
def segScore (t : String) : Option (ℚ × ℕ) :=
  let cleaned := keepDigitsDots t.data
  if cleaned.isEmpty || 1 < cleaned.count '.' then none
  else
    match parseDecimal cleaned with
    | none => none
    | some val =>
      let nd := (cleaned.filter (fun c => c ≠ '.')).length
      some (val, nd + (if '.' ∈ cleaned then 2 else 0))

/-- One iteration of the candidate-selection loop in
`EasyOCRMeterReader.read_meter`: the accumulator is
`(best_candidate, max_digits)` and a segment replaces it only when its score
is strictly larger and its value is below `1000000`. -/
def segStep (acc : ℚ × ℕ) (t : String) : ℚ × ℕ :=
  match segScore t with
  | none => acc
  | some (val, score) => if acc.2 < score ∧ val < 1000000 then (val, score) else acc

/-- `EasyOCRMeterReader.read_meter`, with the list of recognised text segments
passed in as `segs` (`Except.error` models an exception from
`reader.readtext`). -/
def easyReadMeter (segs : Except Unit (List String)) (expected : Option String) : ℚ :=
  match segs with
  | .error _ => 0
  | .ok results =>
    let comp := (results.foldl segStep (0, 0)).1
    match expected with
    | some e =>
      if results.any (fun t => isSub (normalizeText e) (normalizeText t)) then
        (pyFloat e).getD 0
      else comp
    | none => comp

/-- First half of `digitsPrefix`: the maximal digit prefix. -/
def digitsPrefix (cs : List Char) : List Char × List Char :=
  (cs.takeWhile Char.isDigit, cs.dropWhile Char.isDigit)

/-- One attempt of the regular expression `(\d+[.,]\d+|\d+)` anchored at the
head of the list (greedy `\d+`, first alternative preferred). -/
def matchNumAt (cs : List Char) : Option (List Char) :=
  let p := digitsPrefix cs
  if p.1.isEmpty then none
  else
    match p.2 with
    | c :: rest2 =>
      if c = '.' ∨ c = ',' then
        let q := digitsPrefix rest2
        if q.1.isEmpty then some p.1 else some (p.1 ++ c :: q.1)
      else some p.1
    | [] => some p.1

/-- `re.search(r'(\d+[.,]\d+|\d+)', text)`: leftmost match of the pattern. -/
def regexFirstNumber : List Char → Option (List Char)
  | [] => none
  | c :: t =>
    match matchNumAt (c :: t) with
    | some m => some m
    | none => regexFirstNumber t

/-- The shared response-to-number extraction of the remote backends
(`GemmaGoogleMeterReader` / `OpenRouterMeterReader`): character filtering
first, regular-expression fallback when the filtered text is empty, `0.0`
when both fail or when `float` raises. -/
def extractNumber (text : String) : ℚ :=
  let cleaned := keepDigitsDots text.data
  if cleaned.isEmpty then
    match regexFirstNumber text.data with
    | some m => (parseDecimal (commaToDot m)).getD 0
    | none => 0
  else (parseDecimal cleaned).getD 0

/-- The prompt both remote backends send: a caller-supplied custom prompt or
the default instruction, with the calibration hint appended when present.
The hint influences nothing but this prompt text in the remote readers. -/
def buildPrompt (customPrompt : Option String) (expected : Option String) : String :=
  let base := customPrompt.getD
    "Read the numeric value from this meter. Return ONLY the number. If you are unsure, return 0. Ignore any non-numeric text."
  match expected with
  | some e => base ++ " The expected value is close to " ++ e ++ "."
  | none => base

/-- `GemmaGoogleMeterReader.read_meter`: `hasModel` is whether the API key was
present at construction; `resp` is the outcome of the `generate_content` call
(the response text, already `.strip()`-ed into `String`).  The calibration
hint and the custom prompt reach only the prompt text, never the
post-processing. -/
def gemmaReadMeter (hasModel : Bool) (resp : Except Unit String)
    (expected : Option String) (customPrompt : Option String) : ℚ :=
  if !hasModel then 0
  else
    match resp with
    | .error _ => 0
    | .ok text =>
      let _ := buildPrompt customPrompt expected
      extractNumber text

/-- `OpenRouterMeterReader.read_meter`: `hasKey` is whether
`OPENROUTER_API_KEY` was present; `resp` is the outcome of the HTTP call, with
`some text` when the JSON carried a non-empty `choices` list and `none` when
it did not. -/
def openRouterReadMeter (hasKey : Bool) (resp : Except Unit (Option String))
    (expected : Option String) (customPrompt : Option String) : ℚ :=
  if !hasKey then 0
  else
    match resp with
    | .error _ => 0
    | .ok none => 0
    | .ok (some text) =>
      let _ := buildPrompt customPrompt expected
      extractNumber text

/-- The five extractor values `SmartMeterReader.read_meter` collects, in the
order of the `results` list of the source
(`[val_easy, val_tess, val_gemma_27b, val_gemma_12b, val_qwen]`). -/
structure OcrValues where
  easy : ℚ
  tess : ℚ
  gemma27 : ℚ
  gemma12 : ℚ
  qwen : ℚ
deriving DecidableEq, Repr

/-- Which rule of `SmartMeterReader.read_meter` produced the final value. -/
inductive Rule
  | calibration
  | remotePair12
  | remotePair23
  | remoteLocal
  | localPair
  | priorityGemma27
  | priorityGemma12
  | priorityQwen
  | fallbackEasy
  | fallbackTess
  | noReading
deriving DecidableEq, Repr

/-- The voting / consensus logic of `SmartMeterReader.read_meter` after the
calibration check, tagged with the rule applied. -/
def votingR (v : OcrValues) : ℚ × Rule :=
  if 0 < v.gemma27 ∧ v.gemma27 = v.gemma12 then (v.gemma27, .remotePair12)
  else if 0 < v.gemma12 ∧ v.gemma12 = v.qwen then (v.gemma12, .remotePair23)
  else if 0 < v.gemma27 ∧ (v.gemma27 = v.easy ∨ v.gemma27 = v.tess) then (v.gemma27, .remoteLocal)
  else if v.easy = v.tess ∧ 0 < v.easy then (v.easy, .localPair)
  else if 0 < v.gemma27 then (v.gemma27, .priorityGemma27)
  else if 0 < v.gemma12 then (v.gemma12, .priorityGemma12)
  else if 0 < v.qwen then (v.qwen, .priorityQwen)
  else if 0 < v.easy then (v.easy, .fallbackEasy)
  else if 0 < v.tess then (v.tess, .fallbackTess)
  else (0, .noReading)

/-- The decision logic of `SmartMeterReader.read_meter` as a function of the
five collected extractor values and the calibration hint, tagged with the rule
applied.  The calibration branch is
`exp_float = float(expected_value.replace(",", "."))`;
`if exp_float > 0 and exp_float in results: return exp_float`
(an unparseable hint falls through to voting via the bare `except`). -/
def smartConsensusR (v : OcrValues) (expected : Option String) : ℚ × Rule :=
  match expected.bind pyFloatComma with
  | some x =>
    if 0 < x ∧ (x = v.easy ∨ x = v.tess ∨ x = v.gemma27 ∨ x = v.gemma12 ∨ x = v.qwen) then
      (x, .calibration)
    else votingR v
  | none => votingR v

/-- The value `SmartMeterReader.read_meter` returns, given the five extractor
values and the calibration hint. -/
def smartConsensus (v : OcrValues) (expected : Option String) : ℚ :=
  (smartConsensusR v expected).1

/-- Environment for a full `SmartMeterReader.read_meter` call: the outcomes of
the five underlying extractor invocations. -/
structure SmartEnv where
  tessOcr : Except Unit String
  easySegs : Except Unit (List String)
  gemma27Has : Bool
  gemma27Resp : Except Unit String
  gemma12Key : Bool
  gemma12Resp : Except Unit (Option String)
  qwenKey : Bool
  qwenResp : Except Unit (Option String)

/-- `SmartMeterReader.read_meter`: run the five extractors on the same
image / hint / prompt, then decide. -/
def smartReadMeter (env : SmartEnv) (expected : Option String)
    (customPrompt : Option String) : ℚ :=
  smartConsensus
    ⟨easyReadMeter env.easySegs expected,
     tesseractReadMeter env.tessOcr expected,
     gemmaReadMeter env.gemma27Has env.gemma27Resp expected customPrompt,
     openRouterReadMeter env.gemma12Key env.gemma12Resp expected customPrompt,
     openRouterReadMeter env.qwenKey env.qwenResp expected customPrompt⟩
    expected

/-- `ValidationResult` from `app/services/validation_service.py`.
`readingValue` models the `reading_value` entry of the `details` dict where
the source puts one (`none` for checks that carry no reading). -/
structure ValidationResult where
  passed : Bool
  confidence : ℚ
  message : String
  readingValue : Option ℚ
deriving DecidableEq, Repr

/-- `ImageValidationService.validate_fov`: a stub that fails when the image
file does not exist and otherwise returns a fixed simulated pass. -/
def validateFov (imageExists : Bool) : ValidationResult :=
  if imageExists then
    ⟨true, mkRat 95 100, "Meter fully visible and centered in frame", none⟩
  else ⟨false, 0, "Image file not found", none⟩

/-- `ImageValidationService.detect_glare`: same stub structure as
`validate_fov`, with its own fixed simulated pass. -/
def detectGlare (imageExists : Bool) : ValidationResult :=
  if imageExists then
    ⟨true, mkRat 92 100, "No glare detected, lighting conditions good", none⟩
  else ⟨false, 0, "Image file not found", none⟩

/-- `ImageValidationService.validate_initial_reading`: a stub that fails when
the image file does not exist and otherwise reports the fixed simulated
reading `12345.67` with confidence `0.94`, optionally range-checked.  It does
not invoke any meter reader and takes no prompt. -/
def validateInitialReading (imageExists : Bool) (expectedRange : Option (ℚ × ℚ)) :
    ValidationResult :=
  if !imageExists then ⟨false, 0, "Image file not found", none⟩
  else
    let readingValue : ℚ := mkRat 1234567 100
    let conf : ℚ := mkRat 94 100
    match expectedRange with
    | some (lo, hi) =>
      if lo ≤ readingValue ∧ readingValue ≤ hi then
        ⟨true, conf, "Initial reading: 12345.67 kWh (confidence: 94%)", some readingValue⟩
      else ⟨false, conf, "Reading outside expected range", some readingValue⟩
    | none =>
      ⟨true, conf, "Initial reading: 12345.67 kWh (confidence: 94%)", some readingValue⟩

/-- The claimed passing criterion of the OCR gate, modelled from the spec for
comparison with the source: a positive consensus reading with confidence at or
above the fixed threshold `0.7` the source docstring names. -/
def ocrCheckSpec (consensusValue confidence : ℚ) : Bool :=
  decide (0 < consensusValue ∧ mkRat 7 10 ≤ confidence)

/-- The connection-status dictionary `CameraService.check_connection` builds:
`camera` is `none` when no camera row matches the serial, otherwise the
camera's status string and optional `last_heartbeat` timestamp (in seconds);
`now` is `datetime.utcnow()`.  Connected means a heartbeat strictly younger
than 5 minutes. -/
structure ConnStatus where
  connected : Bool
  lastSeen : Option Int
  statusStr : String
deriving DecidableEq, Repr

/-- `CameraService.check_connection`. -/
def checkConnection (camera : Option (String × Option Int)) (now : Int) : ConnStatus :=
  match camera with
  | none => ⟨false, none, "not_found"⟩
  | some (camStatus, lastHb) =>
    match lastHb with
    | some t => ⟨decide (now - t < 300), some t, camStatus⟩
    | none => ⟨false, none, camStatus⟩

/-- `InstallationStatusEnum` from `app/models/installation.py`. -/
inductive InstallationStatus
  | started
  | connectionTestPassed
  | fovValidated
  | glareCheckPassed
  | ocrValidated
  | completed
  | failed
deriving DecidableEq, Repr

/-- Position of a status in the forward order of the installation state
machine (`failed` is the off-chain terminal state). -/
def statusRank : InstallationStatus → ℕ
  | .started => 0
  | .connectionTestPassed => 1
  | .fovValidated => 2
  | .glareCheckPassed => 3
  | .ocrValidated => 4
  | .completed => 5
  | .failed => 6

/-- One legal step of the status machine as the spec states it: no transition
out of a terminal state, and otherwise either a forward move or a drop to
`failed`. -/
def stepOK (s t : InstallationStatus) : Bool :=
  s ≠ .completed ∧ s ≠ .failed ∧ (t = .failed ∨ statusRank s ≤ statusRank t)

/-- `ValidationTypeEnum` from `app/models/installation.py`. -/
inductive CheckType
  | connection
  | fov
  | glare
  | initialOcr
deriving DecidableEq, Repr

/-- A persisted `ValidationCheck` row: which check ran and whether its status
string was `"PASSED"`. -/
structure AuditRecord where
  checkType : CheckType
  passed : Bool
deriving DecidableEq, Repr

/-- One slot of the result dictionary `run_validation_pipeline` returns.
`hasDetails` records whether the slot carries the `details` key, which the
executed checks have and the initial `Waiting...` placeholders lack. -/
structure SlotResult where
  passed : Bool
  message : String
  hasDetails : Bool
deriving DecidableEq, Repr

/-- The `"Waiting..."` placeholder every slot is initialised with. -/
def waitingSlot : SlotResult := ⟨false, "Waiting...", false⟩

/-- The slot built from an executed FOV / glare / OCR check. -/
def execSlot (r : ValidationResult) : SlotResult := ⟨r.passed, r.message, true⟩

/-- The slot built from the executed connection check. -/
def connSlot (c : ConnStatus) : SlotResult :=
  ⟨c.connected,
    if c.connected then "Camera connected successfully" else "Camera not responding",
    true⟩

/-- The inputs one `run_validation_pipeline` invocation consumes: the
connection-check outcome and the three image-check results. -/
structure PipelineEnv where
  conn : ConnStatus
  fov : ValidationResult
  glare : ValidationResult
  ocr : ValidationResult
deriving DecidableEq, Repr

/-- What one `run_validation_pipeline` invocation produces: the four result
slots returned to the caller, the sequence of statuses it assigns to the
session (in commit order), and the `ValidationCheck` rows it persists (in
insertion order). -/
structure PipelineRun where
  connection : SlotResult
  fov : SlotResult
  glare : SlotResult
  ocr : SlotResult
  statusTrace : List InstallationStatus
  audit : List AuditRecord
deriving DecidableEq, Repr

/-- `InstallationService.run_validation_pipeline`.  The source reads the
session's current status nowhere: the assigned statuses depend only on the
check outcomes.  Connection or FOV failure halts with status `failed` and
leaves the remaining slots at the `Waiting...` placeholder; the glare result
is recorded and `glare_check_passed` assigned regardless of its outcome; the
OCR outcome picks `ocr_validated` or `failed`. -/
def runValidationPipeline (env : PipelineEnv) : PipelineRun :=
  let ca : AuditRecord := ⟨.connection, env.conn.connected⟩
  if !env.conn.connected then
    ⟨connSlot env.conn, waitingSlot, waitingSlot, waitingSlot,
      [.failed], [ca]⟩
  else
    let fa : AuditRecord := ⟨.fov, env.fov.passed⟩
    if !env.fov.passed then
      ⟨connSlot env.conn, execSlot env.fov, waitingSlot, waitingSlot,
        [.connectionTestPassed, .failed], [ca, fa]⟩
    else
      let ga : AuditRecord := ⟨.glare, env.glare.passed⟩
      let oa : AuditRecord := ⟨.initialOcr, env.ocr.passed⟩
      ⟨connSlot env.conn, execSlot env.fov, execSlot env.glare, execSlot env.ocr,
        [.connectionTestPassed, .fovValidated, .glareCheckPassed,
          if env.ocr.passed then .ocrValidated else .failed],
        [ca, fa, ga, oa]⟩

/-- The session status after a pipeline run that started at `s0`: the last
status the run assigned (the run always assigns at least one). -/
def statusAfterRun (s0 : InstallationStatus) (r : PipelineRun) : InstallationStatus :=
  r.statusTrace.getLast?.getD s0

/-- `InstallationService.complete_installation`: sets `completed` or `failed`
from the installer's confirmation, without reading the current status. -/
def completeInstallation (confirmed : Bool) : InstallationStatus :=
  if confirmed then .completed else .failed

/-- The pipeline environment the source actually wires up: the connection
check from the camera row and clock, and the three stub validators applied to
the captured test image. -/
def stubEnv (camera : Option (String × Option Int)) (now : Int) (imageExists : Bool) :
    PipelineEnv :=
  ⟨checkConnection camera now, validateFov imageExists, detectGlare imageExists,
    validateInitialReading imageExists none⟩

/-- A camera row, as far as `CameraService.record_heartbeat` touches it. -/
structure CameraRec where
  camId : ℕ
  serial : String
  camStatus : String
  lastHeartbeat : Option Int
deriving DecidableEq, Repr

/-- A persisted `CameraHeartbeat` row: device reference, timestamp and the
metadata (`ip_address`, `status_json`). -/
structure HeartbeatRec where
  cameraId : ℕ
  timestamp : Int
  ipAddress : Option String
  statusJson : String
deriving DecidableEq, Repr

/-- The connectivity-relevant database state: the camera table and the
heartbeat log. -/
structure CamState where
  cameras : List CameraRec
  heartbeats : List HeartbeatRec
deriving DecidableEq, Repr

/-- The status bump `record_heartbeat` applies: `OFFLINE` or `PROVISIONING`
becomes `ACTIVE`. -/
def activateStatus (s : String) : String :=
  if s = "offline" ∨ s = "provisioning" then "active" else s

/-- `CameraService.record_heartbeat`: look the camera up by serial (unknown
serials raise `ValueError`), replace its `last_heartbeat` and bump its status,
and append one new `CameraHeartbeat` row. -/
def recordHeartbeat (st : CamState) (serial : String) (ip : Option String)
    (statusData : String) (now : Int) : Except String CamState :=
  match st.cameras.find? (fun c => c.serial == serial) with
  | none => .error ("Camera with serial " ++ serial ++ " not found")
  | some cam =>
    .ok ⟨st.cameras.map (fun c =>
          if c.serial == serial then ⟨c.camId, c.serial, activateStatus c.camStatus, some now⟩
          else c),
        st.heartbeats ++ [⟨cam.camId, now, ip, statusData⟩]⟩

/-- The qualifying candidate a segment contributes to the selection loop of
`EasyOCRMeterReader.read_meter`: its parsed value and score, provided it
survives the loop's filters (non-empty cleaned text, at most one dot,
parseable, value under the sanity bound `1000000`). -/
def candOf (t : String) : Option (ℚ × ℕ) :=
  match segScore t with
  | none => none
  | some (val, score) => if val < 1000000 then some (val, score) else none

/-- All qualifying candidates of a segment list, in order. -/
def easyCandidates (results : List String) : List (ℚ × ℕ) :=
  results.filterMap candOf

/-- The loop's accumulator update on a qualifying candidate. -/
def pickStep (acc p : ℚ × ℕ) : ℚ × ℕ := if acc.2 < p.2 then p else acc

/-- Whether the calibration containment check of
`EasyOCRMeterReader.read_meter` fires for some segment. -/
def easyCalMatch (results : List String) (expected : Option String) : Bool :=
  match expected with
  | some e => results.any (fun t => isSub (normalizeText e) (normalizeText t))
  | none => false

/-- `traceOK s0 trace` checks that every consecutive status assignment along
`trace`, starting from `s0`, is a legal step of the spec's state machine. -/
def traceOK : InstallationStatus → List InstallationStatus → Bool
  | _, [] => true
  | s, t :: ts => stepOK s t && traceOK t ts

/-- Claim C1, counterexample: the calibration hint `"0"` parses as the float
`0` and the segmented local extractor's value is exactly equal to it, yet
`SmartMeterReader.read_meter` does not return it: the source additionally
requires `exp_float > 0`, so voting runs and returns the highest-priority
remote value `5`. -/
theorem C1_counterexample :
    pyFloatComma "0" = some 0 ∧
    OcrValues.easy ⟨0, 0, 5, 0, 0⟩ = 0 ∧
    smartConsensus ⟨0, 0, 5, 0, 0⟩ (some "0") = 5 ∧
    (5 : ℚ) ≠ 0 :=
  ⟨by decide, rfl, by decide, by norm_num⟩

/-- Claim C1 as amended: if the calibration hint parses (after mapping `','`
to `'.'`) as a float `x` that is strictly positive and exactly equal to one of
the five extractor values, `SmartMeterReader.read_meter` returns `x` by the
calibration rule, before any voting rule is applied. -/
theorem C1_calibration_positive (v : OcrValues) (e : String) (x : ℚ)
    (hp : pyFloatComma e = some x) (hx : 0 < x)
    (hm : x = v.easy ∨ x = v.tess ∨ x = v.gemma27 ∨ x = v.gemma12 ∨ x = v.qwen) :
    smartConsensusR v (some e) = (x, Rule.calibration) := by
  unfold smartConsensusR
  simp only [Option.some_bind, hp]
  simp [hx, hm]

/-- Witness for `C1_calibration_positive` at hint `"12.5"` and the matching
Tesseract value. -/
theorem C1_calibration_positive_witness :
    smartConsensusR ⟨0, mkRat 25 2, 0, 0, 0⟩ (some "12.5") = (mkRat 25 2, Rule.calibration) :=
  C1_calibration_positive ⟨0, mkRat 25 2, 0, 0, 0⟩ "12.5" (mkRat 25 2) (by decide) (by decide)
    (Or.inr (Or.inl rfl))

/-- Claim C2, counterexample: the normalised hint `"100.5"` is a substring of
the remote backend's normalised raw response `"1100.50 kWh"`, yet the Gemma
reader returns its computed value `1100.5`, not the calibration value
`100.5` — the remote variants have no calibration short-circuit. -/
theorem C2_counterexample :
    isSub (normalizeText "100.5") (normalizeText "1100.50 kWh") = true ∧
    pyFloat "100.5" = some (mkRat 1005 10) ∧
    gemmaReadMeter true (.ok "1100.50 kWh") (some "100.5") none = mkRat 11005 10 ∧
    (mkRat 11005 10 : ℚ) ≠ mkRat 1005 10 := by
  decide

/-- Claim C2 as amended: the calibration containment short-circuit exists only
in the two local OCR variants, which return the parsed hint (or `0.0` when
the hint itself fails to parse) whenever the normalised hint occurs in their
normalised raw output; the remote backends ignore the hint entirely outside
the prompt text — their result is the same with or without it. -/
theorem C2_shortcircuit_local_only :
    (∀ text e, isSub (normalizeText e) (normalizeText text) = true →
      tesseractReadMeter (.ok text) (some e) = (pyFloat e).getD 0) ∧
    (∀ segs e, segs.any (fun t => isSub (normalizeText e) (normalizeText t)) = true →
      easyReadMeter (.ok segs) (some e) = (pyFloat e).getD 0) ∧
    (∀ hasModel resp e cp,
      gemmaReadMeter hasModel resp (some e) cp = gemmaReadMeter hasModel resp none cp) ∧
    (∀ hasKey resp e cp,
      openRouterReadMeter hasKey resp (some e) cp = openRouterReadMeter hasKey resp none cp) := by
  refine ⟨?_, ?_, ?_, ?_⟩
  · intro text e h
    simp [tesseractReadMeter, h]
  · intro segs e h
    simp [easyReadMeter, h]
  · intro hasModel resp e cp
    cases resp <;> simp [gemmaReadMeter]
  · intro hasKey resp e cp
    rcases resp with _ | (_ | t) <;> simp [openRouterReadMeter]

/-- Witness for `C2_shortcircuit_local_only` on both local variants. -/
theorem C2_shortcircuit_local_only_witness :
    tesseractReadMeter (.ok "100.50 kWh") (some "100.5") = mkRat 201 2 ∧
    easyReadMeter (.ok ["abc", "100.50"]) (some "100.5") = mkRat 201 2 :=
  ⟨(C2_shortcircuit_local_only.1 "100.50 kWh" "100.5" (by decide)).trans (by decide),
   (C2_shortcircuit_local_only.2.1 ["abc", "100.50"] "100.5" (by decide)).trans (by decide)⟩

/-- Claim C3: whenever the pipeline reaches the glare step (connection and FOV
passed), the glare result is persisted to the audit trail whatever its
outcome, `glare_check_passed` is assigned unconditionally, and the OCR check
is executed next (its slot is an executed result and its record is
persisted) — a glare failure never halts the pipeline. -/
theorem C3_glare_never_halts (env : PipelineEnv)
    (hc : env.conn.connected = true) (hf : env.fov.passed = true) :
    (runValidationPipeline env).audit =
      [⟨CheckType.connection, true⟩, ⟨CheckType.fov, true⟩,
       ⟨CheckType.glare, env.glare.passed⟩, ⟨CheckType.initialOcr, env.ocr.passed⟩] ∧
    InstallationStatus.glareCheckPassed ∈ (runValidationPipeline env).statusTrace ∧
    (runValidationPipeline env).ocr = execSlot env.ocr := by
  unfold runValidationPipeline
  rw [hc, hf]
  simp

/-- Witness for `C3_glare_never_halts` with a failing glare check: the glare
failure is recorded and OCR still executes. -/
theorem C3_glare_never_halts_witness :
    (runValidationPipeline ⟨⟨true, some 0, "active"⟩, ⟨true, 1, "ok", none⟩,
        ⟨false, 0, "glare detected", none⟩, ⟨true, 1, "ok", none⟩⟩).audit =
      [⟨CheckType.connection, true⟩, ⟨CheckType.fov, true⟩,
       ⟨CheckType.glare, false⟩, ⟨CheckType.initialOcr, true⟩] ∧
    InstallationStatus.glareCheckPassed ∈
      (runValidationPipeline ⟨⟨true, some 0, "active"⟩, ⟨true, 1, "ok", none⟩,
        ⟨false, 0, "glare detected", none⟩, ⟨true, 1, "ok", none⟩⟩).statusTrace ∧
    (runValidationPipeline ⟨⟨true, some 0, "active"⟩, ⟨true, 1, "ok", none⟩,
        ⟨false, 0, "glare detected", none⟩, ⟨true, 1, "ok", none⟩⟩).ocr =
      execSlot ⟨true, 1, "ok", none⟩ :=
  C3_glare_never_halts _ rfl rfl

/-- Claim C4: when no fresh-enough heartbeat exists (none at all, or the last
one at least 5 minutes old), the connection check fails, the session status is
set to `failed`, the FOV/glare/OCR slots are returned as the `Waiting...`
placeholder, and only the connection check is persisted to the audit trail. -/
theorem C4_connection_failure_halts (camStatus : String) (hb : Option Int) (now : Int)
    (fov glare ocr : ValidationResult)
    (h : ∀ t, hb = some t → 300 ≤ now - t) :
    (checkConnection (some (camStatus, hb)) now).connected = false ∧
    runValidationPipeline ⟨checkConnection (some (camStatus, hb)) now, fov, glare, ocr⟩ =
      ⟨connSlot (checkConnection (some (camStatus, hb)) now),
       waitingSlot, waitingSlot, waitingSlot,
       [InstallationStatus.failed], [⟨CheckType.connection, false⟩]⟩ := by
  have hconn : (checkConnection (some (camStatus, hb)) now).connected = false := by
    cases hb with
    | none => rfl
    | some t =>
      have ht := h t rfl
      unfold checkConnection
      simp only [decide_eq_false_iff_not]
      omega
  refine ⟨hconn, ?_⟩
  unfold runValidationPipeline
  rw [hconn]
  simp [hconn]

/-- Witness for `C4_connection_failure_halts` with a stale heartbeat. -/
theorem C4_connection_failure_halts_witness :
    (checkConnection (some (("active", some 0) : String × Option Int)) 301).connected = false ∧
    runValidationPipeline ⟨checkConnection (some (("active", some 0) : String × Option Int)) 301,
        ⟨true, 1, "ok", none⟩, ⟨true, 1, "ok", none⟩, ⟨true, 1, "ok", none⟩⟩ =
      ⟨connSlot (checkConnection (some (("active", some 0) : String × Option Int)) 301),
       waitingSlot, waitingSlot, waitingSlot,
       [InstallationStatus.failed], [⟨CheckType.connection, false⟩]⟩ :=
  C4_connection_failure_halts "active" (some 0) 301 ⟨true, 1, "ok", none⟩ ⟨true, 1, "ok", none⟩
    ⟨true, 1, "ok", none⟩ (by intro t ht; injection ht with ht; omega)

/-- Claim C5, counterexample: `run_validation_pipeline` never reads the
session's current status, so re-running it on a session already in the
terminal `completed` state assigns `connection_test_passed` — a regression in
the forward order, violating both "status never regresses" and "terminal
states admit no further automatic transitions". -/
theorem C5_counterexample :
    (runValidationPipeline (stubEnv (some ("active", some 0)) 0 true)).statusTrace.head? =
      some InstallationStatus.connectionTestPassed ∧
    traceOK InstallationStatus.completed
      (runValidationPipeline (stubEnv (some ("active", some 0)) 0 true)).statusTrace = false := by
  decide

/-- Claim C5 as amended: within a single pipeline run the assigned statuses
never regress — starting from `started`, every consecutive assignment moves
forward in the order or drops to `failed` — and `complete_installation` from
a non-terminal state is likewise a legal step; what the original claim added
and the code lacks is any guard across runs (see `C5_counterexample`). -/
theorem C5_single_run_monotone (env : PipelineEnv) :
    traceOK InstallationStatus.started (runValidationPipeline env).statusTrace = true ∧
    (∀ s0 confirmed, s0 ≠ InstallationStatus.completed → s0 ≠ InstallationStatus.failed →
      stepOK s0 (completeInstallation confirmed) = true) := by
  constructor
  · unfold runValidationPipeline
    by_cases hc : env.conn.connected <;> by_cases hf : env.fov.passed <;>
      by_cases ho : env.ocr.passed <;> simp [hc, hf, ho] <;> decide
  · intro s0 confirmed h1 h2
    cases s0 <;> cases confirmed <;> simp_all [completeInstallation, stepOK, statusRank]

/-- Witness for `C5_single_run_monotone`. -/
theorem C5_single_run_monotone_witness :
    traceOK InstallationStatus.started
      (runValidationPipeline (stubEnv (some ("active", some 0)) 0 true)).statusTrace = true ∧
    stepOK InstallationStatus.started (completeInstallation true) = true :=
  ⟨(C5_single_run_monotone (stubEnv (some ("active", some 0)) 0 true)).1,
   (C5_single_run_monotone (stubEnv (some ("active", some 0)) 0 true)).2
     InstallationStatus.started true (by decide) (by decide)⟩

/-- Claim C6, counterexample: the highest- and lowest-priority remote backends
agree on the positive value `5`, yet with the locals agreeing on `7` the
engine returns `7` — the source never compares the (gemma 27B, qwen) pair, so
that agreeing pair does not win. -/
theorem C6_counterexample :
    OcrValues.gemma27 ⟨7, 7, 5, 0, 5⟩ = OcrValues.qwen ⟨7, 7, 5, 0, 5⟩ ∧
    (0 : ℚ) < OcrValues.gemma27 ⟨7, 7, 5, 0, 5⟩ ∧
    smartConsensus ⟨7, 7, 5, 0, 5⟩ none = 7 ∧
    (7 : ℚ) ≠ 5 := by
  decide

/-- Claim C6 as amended: with no calibration hint, exact agreement on a
positive value by either adjacent remote pair — (gemma 27B, gemma 12B) or
(gemma 12B, qwen) — makes the engine return that shared value; the
(gemma 27B, qwen) pair is not checked. -/
theorem C6_adjacent_remote_pairs (v : OcrValues) :
    (0 < v.gemma27 → v.gemma27 = v.gemma12 → smartConsensus v none = v.gemma27) ∧
    (0 < v.gemma12 → v.gemma12 = v.qwen → smartConsensus v none = v.gemma12) := by
  have h : smartConsensus v none = (votingR v).1 := rfl
  rw [h]
  unfold votingR
  constructor
  · intro h1 h2
    rw [if_pos ⟨h1, h2⟩]
  · intro h1 h2
    by_cases hA : 0 < v.gemma27 ∧ v.gemma27 = v.gemma12
    · rw [if_pos hA]
      exact hA.2
    · rw [if_neg hA, if_pos ⟨h1, h2⟩]

/-- Witness for `C6_adjacent_remote_pairs` on both adjacent pairs. -/
theorem C6_adjacent_remote_pairs_witness :
    smartConsensus ⟨0, 0, 4, 4, 9⟩ none = 4 ∧
    smartConsensus ⟨0, 0, 0, 3, 3⟩ none = 3 :=
  ⟨(C6_adjacent_remote_pairs ⟨0, 0, 4, 4, 9⟩).1 (by norm_num) rfl,
   (C6_adjacent_remote_pairs ⟨0, 0, 0, 3, 3⟩).2 (by norm_num) rfl⟩

/-- Claim C7, counterexample: the pipeline's OCR check is the stubbed
`validate_initial_reading`, which never invokes the consensus engine and
takes no prompt.  With every extractor failing, `SmartMeterReader.read_meter`
returns the no-reading sentinel `0` — under the claimed criterion (positive
consensus value, confidence at or above the threshold) the check would fail —
yet the stub passes on any existing image with the fixed simulated reading
`12345.67`. -/
theorem C7_counterexample :
    smartReadMeter ⟨.error (), .error (), false, .error (), false, .error (),
      false, .error ()⟩ none none = 0 ∧
    ocrCheckSpec 0 (mkRat 94 100) = false ∧
    (validateInitialReading true none).passed = true ∧
    (validateInitialReading true none).readingValue = some (mkRat 1234567 100) := by
  decide

/-- Claim C7 as amended: a pipeline run that reaches the OCR step executes the
stubbed initial-reading validator on the captured image (with no expected
range and no prompt); that stub passes exactly when the image file exists; and
the final status is `ocr_validated` when the OCR check passes and `failed`
otherwise. -/
theorem C7_ocr_step_stubbed (c : ConnStatus) (imgExists : Bool)
    (hc : c.connected = true) (hf : (validateFov imgExists).passed = true) :
    (runValidationPipeline ⟨c, validateFov imgExists, detectGlare imgExists,
        validateInitialReading imgExists none⟩).ocr =
      execSlot (validateInitialReading imgExists none) ∧
    (validateInitialReading imgExists none).passed = imgExists ∧
    (∀ env : PipelineEnv, env.conn.connected = true → env.fov.passed = true →
      (runValidationPipeline env).statusTrace.getLast? =
        some (if env.ocr.passed then InstallationStatus.ocrValidated
          else InstallationStatus.failed)) := by
  refine ⟨?_, ?_, ?_⟩
  · cases imgExists with
    | false => cases hf
    | true =>
      unfold runValidationPipeline
      rw [hc, hf]
      simp
  · cases imgExists with
    | false => cases hf
    | true => rfl
  · intro env hc2 hf2
    unfold runValidationPipeline
    rw [hc2, hf2]
    cases ho : env.ocr.passed <;> simp

/-- Witness for `C7_ocr_step_stubbed`. -/
theorem C7_ocr_step_stubbed_witness :
    (runValidationPipeline ⟨⟨true, some 0, "active"⟩, validateFov true, detectGlare true,
        validateInitialReading true none⟩).ocr =
      execSlot (validateInitialReading true none) ∧
    (validateInitialReading true none).passed = true ∧
    (runValidationPipeline (stubEnv (some ("active", some 0)) 0 true)).statusTrace.getLast? =
      some InstallationStatus.ocrValidated :=
  have h := C7_ocr_step_stubbed ⟨true, some 0, "active"⟩ true rfl rfl
  ⟨h.1, h.2.1, by
    have h2 := h.2.2 (stubEnv (some ("active", some 0)) 0 true) (by decide) (by decide)
    rw [h2]
    decide⟩

lemma segStep_eq_candOf (acc : ℚ × ℕ) (t : String) :
    segStep acc t = match candOf t with | none => acc | some p => pickStep acc p := by
  unfold segStep candOf pickStep
  cases hs : segScore t with
  | none => rfl
  | some p =>
    rcases p with ⟨val, score⟩
    dsimp only
    by_cases hv : val < 1000000
    · rw [if_pos hv]
      dsimp only
      by_cases ha : acc.2 < score
      · rw [if_pos ⟨ha, hv⟩, if_pos ha]
      · rw [if_neg (fun hand => ha hand.1), if_neg ha]
    · rw [if_neg hv, if_neg (fun hand => hv hand.2)]

lemma foldl_segStep_eq_pickStep (results : List String) (acc : ℚ × ℕ) :
    results.foldl segStep acc = (easyCandidates results).foldl pickStep acc := by
  induction results generalizing acc with
  | nil => rfl
  | cons t ts ih =>
    rw [List.foldl_cons, segStep_eq_candOf]
    cases hc : candOf t with
    | none =>
      have hcand : easyCandidates (t :: ts) = easyCandidates ts := by
        unfold easyCandidates
        rw [List.filterMap_cons, hc]
      rw [hcand]
      exact ih acc
    | some p =>
      have hcand : easyCandidates (t :: ts) = p :: easyCandidates ts := by
        unfold easyCandidates
        rw [List.filterMap_cons, hc]
      rw [hcand, List.foldl_cons]
      exact ih (pickStep acc p)

lemma foldl_pickStep_invariant (L : List (ℚ × ℕ)) (acc : ℚ × ℕ) :
    (L.foldl pickStep acc = acc ∨ L.foldl pickStep acc ∈ L) ∧
    (∀ p ∈ L, p.2 ≤ (L.foldl pickStep acc).2) ∧
    acc.2 ≤ (L.foldl pickStep acc).2 := by
  induction L generalizing acc with
  | nil => simp
  | cons p ps ih =>
    rw [List.foldl_cons]
    by_cases h : acc.2 < p.2
    · have hp : pickStep acc p = p := if_pos h
      rw [hp]
      obtain ⟨h1, h2, h3⟩ := ih p
      refine ⟨?_, ?_, le_of_lt (lt_of_lt_of_le h h3)⟩
      · rcases h1 with h1 | h1
        · exact Or.inr (by rw [h1]; exact List.mem_cons_self p ps)
        · exact Or.inr (List.mem_cons_of_mem p h1)
      · intro q hq
        rcases List.mem_cons.1 hq with rfl | hq
        · exact h3
        · exact h2 q hq
    · have hp : pickStep acc p = acc := if_neg h
      rw [hp]
      obtain ⟨h1, h2, h3⟩ := ih acc
      refine ⟨?_, ?_, h3⟩
      · rcases h1 with h1 | h1
        · exact Or.inl h1
        · exact Or.inr (List.mem_cons_of_mem p h1)
      · intro q hq
        rcases List.mem_cons.1 hq with rfl | hq
        · exact le_trans (le_of_not_lt h) h3
        · exact h2 q hq

lemma parseDecimal_any_digit (cs : List Char) (v : ℚ) (h : parseDecimal cs = some v) :
    cs.any Char.isDigit = true := by
  unfold parseDecimal at h
  by_cases hc : cs.any Char.isDigit ∧ cs.all (fun c => c.isDigit || c == '.') ∧ cs.count '.' ≤ 1
  · exact hc.1
  · rw [if_neg hc] at h
    cases h

lemma segScore_pos (t : String) (val : ℚ) (score : ℕ) (h : segScore t = some (val, score)) :
    0 < score := by
  unfold segScore at h
  by_cases he : (keepDigitsDots t.data).isEmpty || 1 < (keepDigitsDots t.data).count '.'
  · rw [if_pos he] at h
    cases h
  · rw [if_neg he] at h
    revert h
    cases hps : parseDecimal (keepDigitsDots t.data) with
    | none => intro h; cases h
    | some v0 =>
      intro h
      injection h with h
      have hdig := parseDecimal_any_digit _ _ hps
      rcases List.any_eq_true.1 hdig with ⟨c, hcmem, hcdig⟩
      have hcne : c ≠ '.' := by
        intro hcd
        rw [hcd] at hcdig
        cases hcdig
      have hmem : c ∈ (keepDigitsDots t.data).filter (fun c => c ≠ '.') := by
        rw [List.mem_filter]
        exact ⟨hcmem, by simp [hcne]⟩
      have hlen : 0 < ((keepDigitsDots t.data).filter (fun c => c ≠ '.')).length :=
        List.length_pos.2 (fun hnil => by rw [hnil] at hmem; cases hmem)
      have hscore := congrArg Prod.snd h
      simp only at hscore
      omega

lemma candOf_score_pos (t : String) (p : ℚ × ℕ) (h : candOf t = some p) : 0 < p.2 := by
  unfold candOf at h
  revert h
  cases hs : segScore t with
  | none => intro h; cases h
  | some q =>
    rcases q with ⟨val, score⟩
    dsimp only
    by_cases hv : val < 1000000
    · rw [if_pos hv]
      intro h
      injection h with h
      subst h
      exact segScore_pos t val score hs
    · rw [if_neg hv]
      intro h
      cases h

/-- Claim C8: with no calibration match, the segmented local OCR scores each
segment (digit count, plus 2 when a decimal dot is present), ignores segments
that clean to nothing, have more than one dot or fail to parse, and returns
the parsed value of a maximal-score segment among those whose value is below
`1000000`; it returns `0.0` when no segment qualifies. -/
theorem C8_easyocr_best_segment (results : List String) (expected : Option String)
    (hnc : easyCalMatch results expected = false) :
    (easyCandidates results = [] → easyReadMeter (.ok results) expected = 0) ∧
    (easyCandidates results ≠ [] → ∃ p ∈ easyCandidates results,
      easyReadMeter (.ok results) expected = p.1 ∧
      ∀ q ∈ easyCandidates results, q.2 ≤ p.2) := by
  have hrm : easyReadMeter (.ok results) expected = (results.foldl segStep (0, 0)).1 := by
    cases expected with
    | none => rfl
    | some e =>
      unfold easyCalMatch at hnc
      dsimp only at hnc
      simp only [easyReadMeter, hnc, Bool.false_eq_true, if_false]
  rw [hrm, foldl_segStep_eq_pickStep]
  obtain ⟨h1, h2, _⟩ := foldl_pickStep_invariant (easyCandidates results) (0, 0)
  constructor
  · intro hnil
    rw [hnil]
    rfl
  · intro hne
    rcases List.exists_mem_of_ne_nil _ hne with ⟨q0, hq0⟩
    have hq0pos : 0 < q0.2 := by
      rcases List.mem_filterMap.1 hq0 with ⟨t, _, ht⟩
      exact candOf_score_pos t q0 ht
    have hrpos : 0 < ((easyCandidates results).foldl pickStep (0, 0)).2 :=
      lt_of_lt_of_le hq0pos (h2 q0 hq0)
    rcases h1 with h1 | h1
    · rw [h1] at hrpos
      cases hrpos
    · exact ⟨_, h1, rfl, h2⟩

/-- Witness for `C8_easyocr_best_segment`: among `["12.5", "1234567", "99"]`
the segment `"1234567"` exceeds the sanity bound and `"12.5"` wins on score
(3 digits + 2 for the dot), so the reader returns `12.5`. -/
theorem C8_easyocr_best_segment_witness :
    ∃ p ∈ easyCandidates ["12.5", "1234567", "99"],
      easyReadMeter (.ok ["12.5", "1234567", "99"]) none = p.1 ∧
      ∀ q ∈ easyCandidates ["12.5", "1234567", "99"], q.2 ≤ p.2 :=
  (C8_easyocr_best_segment ["12.5", "1234567", "99"] none (by decide)).2 (by decide)

lemma parseDecimal_eq_none_of_no_digit (cs : List Char) (h : cs.any Char.isDigit = false) :
    parseDecimal cs = none := by
  unfold parseDecimal
  rw [if_neg]
  intro hc
  rw [h] at hc
  exact Bool.false_ne_true hc.1

lemma keepDigitsDots_no_digit (cs : List Char) (h : ∀ c ∈ cs, c.isDigit = false) :
    ∀ c ∈ keepDigitsDots cs, c.isDigit = false := by
  intro c hc
  unfold keepDigitsDots commaToDot at hc
  rcases List.mem_map.1 hc with ⟨c0, hc0, rfl⟩
  have h0 := h c0 (List.mem_of_mem_filter hc0)
  by_cases hcomma : c0 = ','
  · simp [hcomma]
  · simp [hcomma, h0]

lemma regexFirstNumber_eq_none (cs : List Char) (h : ∀ c ∈ cs, c.isDigit = false) :
    regexFirstNumber cs = none := by
  induction cs with
  | nil => rfl
  | cons c t ih =>
    have hc : c.isDigit = false := h c (List.mem_cons_self c t)
    have hm : matchNumAt (c :: t) = none := by
      unfold matchNumAt digitsPrefix
      rw [List.takeWhile_cons, hc]
      simp
    unfold regexFirstNumber
    rw [hm]
    exact ih (fun x hx => h x (List.mem_cons_of_mem c hx))

/-- Claim C9: every extractor variant returns a value for every modelled
outcome, and every extraction failure — image/OCR exception, missing
credentials, HTTP error, empty or digit-free (unparseable) response —
degrades to the sentinel `0.0` instead of raising. -/
theorem C9_failures_degrade_to_zero :
    (∀ e exp, tesseractReadMeter (.error e) exp = 0) ∧
    (∀ e exp, easyReadMeter (.error e) exp = 0) ∧
    (∀ resp exp cp, gemmaReadMeter false resp exp cp = 0) ∧
    (∀ e exp cp, gemmaReadMeter true (.error e) exp cp = 0) ∧
    (∀ resp exp cp, openRouterReadMeter false resp exp cp = 0) ∧
    (∀ e exp cp, openRouterReadMeter true (.error e) exp cp = 0) ∧
    (∀ exp cp, openRouterReadMeter true (.ok none) exp cp = 0) ∧
    (∀ text exp cp, (∀ c ∈ text.data, c.isDigit = false) →
      gemmaReadMeter true (.ok text) exp cp = 0) := by
  refine ⟨fun e exp => rfl, fun e exp => rfl, fun resp exp cp => rfl, fun e exp cp => rfl,
    fun resp exp cp => rfl, fun e exp cp => rfl, fun exp cp => rfl, ?_⟩
  intro text exp cp h
  show extractNumber text = 0
  unfold extractNumber
  by_cases he : (keepDigitsDots text.data).isEmpty
  · rw [if_pos he, regexFirstNumber_eq_none text.data h]
  · rw [if_neg he]
    rw [parseDecimal_eq_none_of_no_digit]
    · rfl
    · rw [← Bool.not_eq_true, List.any_eq_true]
      push_neg
      intro c hc
      have := keepDigitsDots_no_digit text.data h c hc
      simp [this]

/-- Witness for `C9_failures_degrade_to_zero` on a digit-free response. -/
theorem C9_failures_degrade_to_zero_witness :
    gemmaReadMeter true (.ok "no reading visible") none none = 0 :=
  C9_failures_degrade_to_zero.2.2.2.2.2.2.2 "no reading visible" none none (by decide)

/-- Claim C10, counterexample: two heartbeats for the one registered camera
leave two `CameraHeartbeat` rows `{camera_id, timestamp, ip, metadata}` in the
log — the heartbeat record is appended, not replaced, so the system does not
hold exactly one such record per device (only the camera row's
`last_heartbeat` field is replaced). -/
theorem C10_counterexample :
    recordHeartbeat ⟨[⟨1, "CAM1", "provisioning", none⟩], []⟩ "CAM1" none "" 10 =
      .ok ⟨[⟨1, "CAM1", "active", some 10⟩], [⟨1, 10, none, ""⟩]⟩ ∧
    recordHeartbeat ⟨[⟨1, "CAM1", "active", some 10⟩], [⟨1, 10, none, ""⟩]⟩ "CAM1" none "" 20 =
      .ok ⟨[⟨1, "CAM1", "active", some 20⟩], [⟨1, 10, none, ""⟩, ⟨1, 20, none, ""⟩]⟩ ∧
    (([⟨1, 10, none, ""⟩, ⟨1, 20, none, ""⟩] : List HeartbeatRec).filter
      (fun h => h.cameraId == 1)).length = 2 :=
  ⟨rfl, rfl, by decide⟩

/-- Claim C10 as amended: a successful heartbeat replaces the camera row's
last-seen timestamp in place — the camera table keeps exactly one row per
device and rows for other serials are untouched — while additionally
appending exactly one `CameraHeartbeat` log row; unknown serials are rejected
before any write. -/
theorem C10_heartbeat_upsert (st : CamState) (serial : String) (ip : Option String)
    (sd : String) (now : Int) (st' : CamState)
    (h : recordHeartbeat st serial ip sd now = .ok st') :
    st'.cameras.length = st.cameras.length ∧
    st'.heartbeats.length = st.heartbeats.length + 1 ∧
    (∀ c ∈ st'.cameras, c.serial = serial → c.lastHeartbeat = some now) ∧
    (∀ c ∈ st'.cameras, c.serial ≠ serial → c ∈ st.cameras) ∧
    st.cameras.find? (fun c => c.serial == serial) ≠ none := by
  unfold recordHeartbeat at h
  cases hf : st.cameras.find? (fun c => c.serial == serial) with
  | none =>
    rw [hf] at h
    cases h
  | some cam =>
    rw [hf] at h
    injection h with h
    subst h
    refine ⟨List.length_map _ _, by simp, ?_, ?_, by simp [hf]⟩
    · intro c hc hcs
      rcases List.mem_map.1 hc with ⟨c0, _, hceq⟩
      by_cases h0 : c0.serial == serial
      · rw [if_pos h0] at hceq
        rw [← hceq]
      · rw [if_neg h0] at hceq
        rw [← hceq] at hcs
        exact absurd hcs (by simpa using h0)
    · intro c hc hcs
      rcases List.mem_map.1 hc with ⟨c0, hc0, hceq⟩
      by_cases h0 : c0.serial == serial
      · rw [if_pos h0] at hceq
        rw [← hceq] at hcs
        exact absurd (by simpa using h0) hcs
      · rw [if_neg h0] at hceq
        rw [← hceq]
        exact hc0

/-- Witness for `C10_heartbeat_upsert`. -/
theorem C10_heartbeat_upsert_witness :
    ((⟨[⟨1, "CAM1", "active", some 10⟩], [⟨1, 10, none, ""⟩]⟩ : CamState).cameras).length =
      ((⟨[⟨1, "CAM1", "provisioning", none⟩], []⟩ : CamState).cameras).length ∧
    ((⟨[⟨1, "CAM1", "active", some 10⟩], [⟨1, 10, none, ""⟩]⟩ : CamState).heartbeats).length =
      ((⟨[⟨1, "CAM1", "provisioning", none⟩], []⟩ : CamState).heartbeats).length + 1 :=
  have h := C10_heartbeat_upsert ⟨[⟨1, "CAM1", "provisioning", none⟩], []⟩ "CAM1" none "" 10
    ⟨[⟨1, "CAM1", "active", some 10⟩], [⟨1, 10, none, ""⟩]⟩ rfl
  ⟨h.1, h.2.1⟩
